import Mathlib

/-!
Verification of the outbound notification dispatch engine of the
newsletter-service repository: providers and batching
(internal/providers/batch_manager.go, sendgrid.go, factory.go), load
balancing (internal/providers/load_balancer.go) and the dispatch
orchestrator / retry sweep (the notification service file).

Go code is shallowly embedded: pure computations become Lean functions,
mutable provider state becomes explicit state passing, network sends are
modelled by outcome oracles (none = success, some msg = the returned
error), and Go maps keyed by provider instances become lists or functions
indexed by provider position.
-/

namespace Newsletter

/-- Message payload for a single email, from EmailNotification in
internal/providers/interface.go. The Go fields To and From are called
toAddr and fromAddr here because to and from are reserved words in Lean. -/
structure EmailNotification where
  toAddr : String
  subject : String
  body : String
  fromAddr : String
deriving Repr, DecidableEq

/-- Bulk message payload, from BulkEmailNotification in
internal/providers/interface.go. -/
structure BulkEmailNotification where
  toAddr : List String
  subject : String
  body : String
  fromAddr : String
deriving Repr, DecidableEq

/-- Status string constants from internal/constants/constants.go. -/
def StatusPending : String := "pending"

/-- Status string for a delivery that succeeded
(internal/constants/constants.go). -/
def StatusSent : String := "sent"

/-- Status string for a delivery that failed
(internal/constants/constants.go). -/
def StatusFailed : String := "failed"

/-- Retry ceiling MaxEmailRetryCount from
internal/constants/constants.go. -/
def MaxEmailRetryCount : Nat := 3

/- ------------------------------------------------------------------
Batch decorator (internal/providers/batch_manager.go): AsyncBatchManager
and BatchedEmailProvider. The wrapped concrete provider is represented
by a directSend oracle at each call.
------------------------------------------------------------------- -/

/-- State of AsyncBatchManager (batch_manager.go lines 10-20): the
mutex-guarded accumulating batch and its size threshold.
processingTriggered records that a signal was sent on processingChan. -/
structure AsyncBatchManager where
  batchSize : Nat
  batch : List EmailNotification
  processingTriggered : Bool
deriving Repr, DecidableEq

/-- AddToBatch (batch_manager.go lines 41-59): appends the email to the
batch, signals processing once the batch has reached batchSize, and
always returns nil (modelled as none). -/
def AsyncBatchManager.addToBatch (bm : AsyncBatchManager) (email : EmailNotification) :
    AsyncBatchManager × Option String :=
  let newBatch := bm.batch ++ [email]
  let triggered := bm.processingTriggered || decide (bm.batchSize ≤ newBatch.length)
  ({ bm with batch := newBatch, processingTriggered := triggered }, none)

/-- State of BatchedEmailProvider (batch_manager.go lines 183-188); the
wrapped provider is modelled by the send oracle given to sendEmail. -/
structure BatchedEmailProvider where
  bulkEnabled : Bool
  batchManager : Option AsyncBatchManager
deriving Repr, DecidableEq

/-- NewBatchedEmailProvider (batch_manager.go lines 190-205): a batch
manager is created exactly when bulkEnabled is false. The factory
(factory.go line 36) constructs every SMTP provider with
NewBatchedEmailProvider(provider, 50, false). -/
def NewBatchedEmailProvider (batchSize : Nat) (bulkEnabled : Bool) : BatchedEmailProvider :=
  if bulkEnabled then
    { bulkEnabled := bulkEnabled, batchManager := none }
  else
    { bulkEnabled := bulkEnabled,
      batchManager := some { batchSize := batchSize, batch := [], processingTriggered := false } }

/-- SendEmail on BatchedEmailProvider (batch_manager.go lines 207-216):
bulk-enabled providers, or a missing batch manager, send directly through
the wrapped provider (directSend gives that call result); otherwise the
notification is added to the batch and the AddToBatch result is
returned. -/
def BatchedEmailProvider.sendEmail (bp : BatchedEmailProvider)
    (directSend : EmailNotification → Option String) (n : EmailNotification) :
    BatchedEmailProvider × Option String :=
  if bp.bulkEnabled || bp.batchManager.isNone then
    (bp, directSend n)
  else
    match bp.batchManager with
    | some bm =>
      let r := bm.addToBatch n
      ({ bp with batchManager := some r.1 }, r.2)
    | none => (bp, directSend n)

/-- Sequence of SendEmail calls against one BatchedEmailProvider,
threading the state and collecting each call result in order. -/
def BatchedEmailProvider.sendEmailSeq (bp : BatchedEmailProvider)
    (directSend : EmailNotification → Option String) :
    List EmailNotification → BatchedEmailProvider × List (Option String)
  | [] => (bp, [])
  | n :: ns =>
    let r := bp.sendEmail directSend n
    let rest := r.1.sendEmailSeq directSend ns
    (rest.1, r.2 :: rest.2)

/- ------------------------------------------------------------------
SMTP bulk emulation (batch_manager.go lines 415-441).
------------------------------------------------------------------- -/

/-- Return value of SMTPEmailProvider.SendBulkEmail. The failed case
carries the data interpolated into the fmt.Errorf message: success
count, total recipient count, last per-recipient error. -/
inductive BulkSendResult where
  | ok
  | failed (successCount : Nat) (total : Nat) (lastError : Option String)
deriving Repr, DecidableEq

/-- Loop of SMTPEmailProvider.SendBulkEmail (batch_manager.go lines
417-433): one individual send per recipient, tracking successCount and
lastError. -/
def smtpBulkLoop (send : String → Option String) :
    List String → Nat → Option String → Nat × Option String
  | [], successCount, lastError => (successCount, lastError)
  | r :: rs, successCount, lastError =>
    match send r with
    | some e => smtpBulkLoop send rs successCount (some e)
    | none => smtpBulkLoop send rs (successCount + 1) lastError

/-- SMTPEmailProvider.SendBulkEmail (batch_manager.go lines 415-441):
emulates bulk by sending individually, then accepts the bulk call iff
successCount is not below len(notification.To)/2 with Go integer
division. -/
def smtpSendBulkEmail (recipients : List String) (send : String → Option String) :
    BulkSendResult :=
  let sc := smtpBulkLoop send recipients 0 none
  if sc.1 < recipients.length / 2 then
    .failed sc.1 recipients.length sc.2
  else
    .ok

/-- Claim-side count of the individual sends that succeeded. -/
def bulkSuccessCount (recipients : List String) (send : String → Option String) : Nat :=
  (recipients.filter (fun r => (send r).isNone)).length

/-- Claim-side last error among the individual sends, if any failed. -/
def bulkLastError (recipients : List String) (send : String → Option String) :
    Option String :=
  (recipients.filterMap send).getLast?

/- ------------------------------------------------------------------
Provider health state machine: SMTPEmailProvider.SendEmail
(batch_manager.go lines 371-413) and SendGridProvider.SendEmail
(sendgrid.go lines 57-101).
------------------------------------------------------------------- -/

/-- Mutable statistics fields shared by the send paths of
SMTPEmailProvider and SendGridProvider: hourly counter, health flag and
last error. -/
structure ProviderHealthState where
  emailsSentHour : Nat
  isHealthy : Bool
  lastError : Option String
deriving Repr, DecidableEq

/-- Statistics update at the end of SMTPEmailProvider.SendEmail
(batch_manager.go lines 402-410), where sendResult is the smtp.SendMail
outcome. GenerateEmailHTML renders a fixed compile-time template over
plain string fields and cannot fail, so every call reaches this
update. -/
def smtpSendEmailUpdate (st : ProviderHealthState) (sendResult : Option String) :
    ProviderHealthState :=
  match sendResult with
  | some e => { st with isHealthy := false, lastError := some e }
  | none =>
    { emailsSentHour := st.emailsSentHour + 1, isHealthy := true, lastError := none }

/-- Statistics update at the end of SendGridProvider.SendEmail
(sendgrid.go lines 88-100), where sendResult is the sendToSendGrid
outcome; the update logic is the same binary health flip. -/
def sendGridSendEmailUpdate (st : ProviderHealthState) (sendResult : Option String) :
    ProviderHealthState :=
  match sendResult with
  | some e => { st with isHealthy := false, lastError := some e }
  | none =>
    { emailsSentHour := st.emailsSentHour + 1, isHealthy := true, lastError := none }

/-- State after a sequence of SMTP send attempts with the given
outcomes. -/
def smtpApplySends (st : ProviderHealthState) (rs : List (Option String)) :
    ProviderHealthState :=
  rs.foldl smtpSendEmailUpdate st

/-- State after a sequence of SendGrid send attempts with the given
outcomes. -/
def sendGridApplySends (st : ProviderHealthState) (rs : List (Option String)) :
    ProviderHealthState :=
  rs.foldl sendGridSendEmailUpdate st

/- ------------------------------------------------------------------
Dynamic provider construction and the priority accessors
(batch_manager.go lines 346-357 and 481-484, the generic API provider
file, internal/config).
------------------------------------------------------------------- -/

/-- Per-provider SMTP configuration block (internal/config), restricted
to the fields read by NewDynamicSMTPProvider. -/
structure SMTPProviderConfig where
  host : String
  port : Int
  username : String
  password : String
  fromAddr : String
  priority : Int
  maxEmailsPerHour : Nat
deriving Repr, DecidableEq

/-- Fields of SMTPEmailProvider (batch_manager.go lines 324-334)
relevant to construction and the priority accessor; the nested SMTPConfig
is flattened away. -/
structure SMTPEmailProvider where
  name : String
  priority : Int
  maxEmailsHour : Nat
  emailsSentHour : Nat
  isHealthy : Bool
deriving Repr, DecidableEq

/-- NewDynamicSMTPProvider (batch_manager.go lines 346-357): stores
config.Priority in the priority field of the provider. -/
def NewDynamicSMTPProvider (name : String) (cfg : SMTPProviderConfig) :
    SMTPEmailProvider :=
  { name := name, priority := cfg.priority, maxEmailsHour := cfg.maxEmailsPerHour,
    emailsSentHour := 0, isHealthy := true }

/-- GetPriority on SMTPEmailProvider (batch_manager.go lines 481-484):
the body is the literal 1 with the comment Default priority for SMTP; the
stored priority field is never read. -/
def SMTPEmailProvider.getPriority (_ : SMTPEmailProvider) : Int := 1

/-- Per-provider API configuration block (internal/config), restricted
to the fields read by NewDynamicAPIProvider. -/
structure APIProviderConfig where
  token : String
  endpoint : String
  priority : Int
  maxEmailsPerHour : Nat
  bulkEnabled : Bool
  maxBatchSize : Nat
deriving Repr, DecidableEq

/-- Fields of GenericAPIProvider from the generic API provider file. -/
structure GenericAPIProvider where
  apiKey : String
  endpoint : String
  name : String
  priority : Int
  maxEmailsHour : Nat
  bulkEnabled : Bool
  maxBatchSize : Nat
  isHealthy : Bool
  emailsSentHour : Nat
deriving Repr, DecidableEq

/-- NewDynamicAPIProvider: builds a GenericAPIProvider carrying
cfg.Priority. -/
def NewDynamicAPIProvider (name : String) (cfg : APIProviderConfig) :
    GenericAPIProvider :=
  { apiKey := cfg.token, endpoint := cfg.endpoint, name := name,
    priority := cfg.priority, maxEmailsHour := cfg.maxEmailsPerHour,
    bulkEnabled := cfg.bulkEnabled, maxBatchSize := cfg.maxBatchSize,
    isHealthy := true, emailsSentHour := 0 }

/-- GetPriority on GenericAPIProvider: returns the stored priority
field. -/
def GenericAPIProvider.getPriority (p : GenericAPIProvider) : Int := p.priority

/-- Concrete SMTP configuration with priority 7, the failing input for
claim C10. -/
def smtpConfigPriority7 : SMTPProviderConfig :=
  { host := "smtp.example.com", port := 587, username := "user",
    password := "pw", fromAddr := "news@example.com", priority := 7,
    maxEmailsPerHour := 100 }

/- ------------------------------------------------------------------
Load balancers (internal/providers/load_balancer.go). A provider is
abstracted to the fields the balancers read through GetStats, GetLimits,
GetPriority, IsEnabled and SupportsBulk; distinct positions in a
provider list stand for the distinct provider instances that key the Go
maps.
------------------------------------------------------------------- -/

/-- Abstract provider view read by the load balancers and the
orchestrator. -/
structure Provider where
  name : String
  priority : Int
  maxEmailsPerHour : Nat
  emailsSentLastHour : Nat
  currentLoad : Nat
  isHealthy : Bool
  enabled : Bool
  supportsBulk : Bool
deriving Repr, DecidableEq

/-- Healthy-provider filter used by the round-robin balancer
(load_balancer.go lines 24-30 and 48-54). -/
def healthyProviders (ps : List Provider) : List Provider :=
  ps.filter (fun p => p.isHealthy)

/-- SelectProvider of RoundRobinLoadBalancer (load_balancer.go lines
19-38). counter is the atomic counter value before the call; the code
returns healthy[(counter+1) % len(healthy)], or providers[0] when no
provider is healthy. -/
def roundRobinSelectProvider (counter : Nat) (ps : List Provider) : Option Provider :=
  if ps.isEmpty then none
  else
    let healthy := healthyProviders ps
    if healthy.isEmpty then ps.head?
    else healthy[(counter + 1) % healthy.length]?

/-- Map-update loop of RoundRobinLoadBalancer.DistributeLoad
(load_balancer.go lines 60-64): the distribution map is a function from
position in the healthy list to the assigned emails; the email with
index i is appended to bucket i % n. -/
def rrLoopFun (n : Nat) :
    List (Nat × EmailNotification) → (Nat → List EmailNotification) →
      Nat → List EmailNotification
  | [], dist => dist
  | (i, email) :: rest, dist =>
    rrLoopFun n rest (fun k => if k = i % n then dist k ++ [email] else dist k)

/-- DistributeLoad of RoundRobinLoadBalancer (load_balancer.go lines
41-67), as a function from position in the healthy provider list to the
emails assigned to the provider at that position. Unhealthy providers
are never keys of the Go map; an empty bucket stands for an absent
key. -/
def roundRobinDistributeLoad (ps : List Provider) (emails : List EmailNotification) :
    Nat → List EmailNotification :=
  if ps.isEmpty || emails.isEmpty then fun _ => []
  else
    let healthy := healthyProviders ps
    if healthy.isEmpty then fun _ => []
    else rrLoopFun healthy.length emails.enum (fun _ => [])

/-- Ordering used by the weighted balancer: ascending priority
(load_balancer.go lines 86-88 and 117-119). -/
def byPriority (a b : Provider) : Prop := a.priority ≤ b.priority

instance : DecidableRel byPriority :=
  fun a b => inferInstanceAs (Decidable (a.priority ≤ b.priority))

instance : IsTotal Provider byPriority :=
  ⟨fun a b => le_total a.priority b.priority⟩

instance : IsTrans Provider byPriority :=
  ⟨fun _ _ _ hab hbc => le_trans hab hbc⟩

/-- Priority-ascending sort of the provider list. Go uses the unstable
sort.Slice with a strict less; insertion sort realises one admissible
output (they differ only in the order of equal-priority providers). -/
def sortByPriority (ps : List Provider) : List Provider :=
  List.insertionSort byPriority ps

/-- Remaining hourly headroom of a provider:
limits.MaxEmailsPerHour - stats.EmailsSentLastHour. Both are
nonnegative counts, so the Go int subtraction tested against <= 0 is
modelled by truncated Nat subtraction tested against = 0. -/
def availableCapacity (p : Provider) : Nat :=
  p.maxEmailsPerHour - p.emailsSentLastHour

/-- Capacity loop of WeightedLoadBalancer.DistributeLoad
(load_balancer.go lines 122-145): walks the priority-sorted providers,
stops when no emails remain (the remaining positions stay absent from
the map, modelled as empty buckets), skips unhealthy or saturated
providers, and otherwise assigns the next min(capacity, remaining)
emails. Returns the per-position buckets and the leftover emails. -/
def weightedTakeLoop :
    List Provider → List EmailNotification →
      List (List EmailNotification) × List EmailNotification
  | [], rem => ([], rem)
  | p :: ps, rem =>
    if rem.length = 0 then
      (List.replicate (p :: ps).length [], rem)
    else if p.isHealthy && decide (0 < availableCapacity p) then
      let t := min (availableCapacity p) rem.length
      let r := weightedTakeLoop ps (rem.drop t)
      (rem.take t :: r.1, r.2)
    else
      let r := weightedTakeLoop ps rem
      ([] :: r.1, r.2)

/-- DistributeLoad of WeightedLoadBalancer (load_balancer.go lines
107-154): sort by priority, run the capacity loop, then append all
leftover emails onto the first sorted provider. The Go map is presented
as the list of (provider, bucket) pairs in sorted order. -/
def weightedDistributeLoad (ps : List Provider) (emails : List EmailNotification) :
    List (Provider × List EmailNotification) :=
  if ps.isEmpty || emails.isEmpty then []
  else
    let sorted := sortByPriority ps
    let r := weightedTakeLoop sorted emails
    match sorted, r.1 with
    | p0 :: rest, d0 :: ds => (p0, d0 ++ r.2) :: rest.zip ds
    | _, _ => []

/-- SelectProvider of WeightedLoadBalancer (load_balancer.go lines
78-104): the first priority-sorted provider that is healthy, under its
hourly cap and under 90 percent load; if none qualifies, the first
sorted provider. -/
def weightedSelectProvider (ps : List Provider) : Option Provider :=
  if ps.isEmpty then none
  else
    let sorted := sortByPriority ps
    match sorted.find? (fun p =>
        p.isHealthy && decide (p.emailsSentLastHour < p.maxEmailsPerHour) &&
          decide (p.currentLoad < 90)) with
    | some p => some p
    | none => sorted.head?

/-- Scan step of LeastLoadLoadBalancer.SelectProvider (load_balancer.go
lines 173-179): keeps the healthy provider with the lowest current load
seen so far, starting from the sentinel 101. -/
def leastLoadStep (acc : Option Provider × Nat) (p : Provider) :
    Option Provider × Nat :=
  if p.isHealthy && decide (p.currentLoad < acc.2) then (some p, p.currentLoad) else acc

/-- SelectProvider of LeastLoadLoadBalancer (load_balancer.go lines
165-187): lowest-load healthy provider, or providers[0] when none was
picked. -/
def leastLoadSelectProvider (ps : List Provider) : Option Provider :=
  if ps.isEmpty then none
  else
    match (ps.foldl leastLoadStep ((none : Option Provider), 101)).1 with
    | some p => some p
    | none => ps.head?

/-- Concrete unhealthy provider used by the C5 counterexample. -/
def unhealthyOnlyProvider : Provider :=
  { name := "p1", priority := 1, maxEmailsPerHour := 100, emailsSentLastHour := 0,
    currentLoad := 0, isHealthy := false, enabled := true, supportsBulk := false }

/-- Concrete healthy provider used by witnesses. -/
def healthyWitnessProvider : Provider :=
  { name := "p2", priority := 2, maxEmailsPerHour := 50, emailsSentLastHour := 10,
    currentLoad := 20, isHealthy := true, enabled := true, supportsBulk := false }

/-- Second concrete unhealthy provider, with a different priority, used
by the C8 witness. -/
def unhealthyProvider2 : Provider :=
  { name := "p3", priority := -4, maxEmailsPerHour := 10, emailsSentLastHour := 10,
    currentLoad := 100, isHealthy := false, enabled := true, supportsBulk := true }

/-- Concrete email used by counterexamples and witnesses. -/
def sampleEmail : EmailNotification :=
  { toAddr := "a@example.com", subject := "s", body := "b", fromAddr := "" }

/-- Second concrete email. -/
def sampleEmail2 : EmailNotification :=
  { toAddr := "b@example.com", subject := "s", body := "b", fromAddr := "" }

/-- Third concrete email. -/
def sampleEmail3 : EmailNotification :=
  { toAddr := "c@example.com", subject := "s", body := "b", fromAddr := "" }

/- ------------------------------------------------------------------
Dispatch orchestrator and retry sweep (the notification service file).
Collaborator calls (content service, subscriber service, database) and
network sends are modelled by oracles; goroutine fan-outs are
sequentialised, which fixes the log order but not the computed counts
or flags.
------------------------------------------------------------------- -/

/-- Content row as read by the orchestrator. -/
structure Content where
  id : Nat
  topicId : Nat
  title : String
  body : String
deriving Repr, DecidableEq

/-- Subscriber row as returned by GetSubscriberByID. -/
structure Subscriber where
  id : Nat
  email : String
  isActive : Bool
deriving Repr, DecidableEq

/-- Delivery record (EmailLog in internal/daos); sentAt is an abstract
timestamp. -/
structure EmailLog where
  subscriberId : Nat
  contentId : Nat
  emailAddress : String
  subject : String
  body : String
  status : String
  sentAt : Option Nat
  errorMessage : Option String
  retryCount : Nat
deriving Repr, DecidableEq

/-- GetBulkCapableProviders (factory.go lines 118-129): enabled
providers that report bulk support, in registration order; health is
not consulted. -/
def getBulkCapableProviders (ps : List Provider) : List Provider :=
  ps.filter (fun p => p.enabled && p.supportsBulk)

/-- Best-provider scan of sendBulkEmails (the notification service
file, lines 212-218): best starts at bulkProviders[0] and is replaced
by any later-visited provider that is healthy and has a strictly lower
priority than the current best. The scan visits the whole list,
including position 0 again, which is a no-op. -/
def selectBestBulkProvider (p0 : Provider) (ps : List Provider) : Provider :=
  ps.foldl (fun best p =>
    if p.isHealthy && decide (p.priority < best.priority) then p else best) p0

/-- Observable effect trace of the multi-provider dispatch decision:
which providers received a SendBulkEmail call, with which recipient
emails the distributed path was entered (none when it was not), and
whether sendBulkEmails returned its no-bulk-providers error. -/
structure MultiDispatchTrace where
  bulkAttempts : List Provider
  distributedWith : Option (List EmailNotification)
  errNoBulk : Bool
deriving Repr, DecidableEq

/-- sendBulkEmails (notification service file, lines 201-240): errors
when no bulk-capable provider exists; otherwise issues exactly one
SendBulkEmail on the scanned best provider (bulkOutcome gives that call
result) and falls back to sendDistributedEmails with the same emails on
error. -/
def sendBulkEmailsTrace (emails : List EmailNotification)
    (bulkProviders : List Provider) (bulkOutcome : Provider → Option String) :
    MultiDispatchTrace :=
  match bulkProviders with
  | [] => { bulkAttempts := [], distributedWith := none, errNoBulk := true }
  | p0 :: rest =>
    match bulkOutcome (selectBestBulkProvider p0 (p0 :: rest)) with
    | some _ =>
      { bulkAttempts := [selectBestBulkProvider p0 (p0 :: rest)],
        distributedWith := some emails, errNoBulk := false }
    | none =>
      { bulkAttempts := [selectBestBulkProvider p0 (p0 :: rest)],
        distributedWith := none, errNoBulk := false }

/-- Path decision of sendNotificationsMultiProvider (notification
service file, lines 190-198): the bulk path is taken when there are
more than 10 active recipients and at least one bulk-capable provider
is registered; otherwise the distributed path runs directly. -/
def sendNotificationsMultiProviderTrace (activeEmails : List EmailNotification)
    (ps : List Provider) (bulkOutcome : Provider → Option String) :
    MultiDispatchTrace :=
  if decide (10 < activeEmails.length) &&
      !(getBulkCapableProviders ps).isEmpty then
    sendBulkEmailsTrace activeEmails (getBulkCapableProviders ps) bulkOutcome
  else
    { bulkAttempts := [], distributedWith := some activeEmails, errNoBulk := false }

/-- Subscriber id lookup inside the distributed send goroutine
(notification service file, lines 269-276): first subscriber whose
email matches, 0 when none matches. -/
def findSubscriberID (subscribers : List (Nat × String)) (addr : String) : Nat :=
  match subscribers.find? (fun sub => sub.2 == addr) with
  | some sub => sub.1
  | none => 0

/-- Log row written by logEmailSuccess (notification service file,
lines 321-337). -/
def successLog (contentId subscriberId : Nat) (e : EmailNotification) (now : Nat) :
    EmailLog :=
  { subscriberId := subscriberId, contentId := contentId, emailAddress := e.toAddr,
    subject := e.subject, body := e.body, status := StatusSent, sentAt := some now,
    errorMessage := none, retryCount := 0 }

/-- Log row written by logEmailFailure (notification service file,
lines 339-358). -/
def failureLog (contentId subscriberId : Nat) (e : EmailNotification) (err : String) :
    EmailLog :=
  { subscriberId := subscriberId, contentId := contentId, emailAddress := e.toAddr,
    subject := e.subject, body := e.body, status := StatusFailed, sentAt := none,
    errorMessage := some err, retryCount := 0 }

/-- One email processed by a distributed-send goroutine (notification
service file, lines 262-287): send, then log success or failure; the
accumulator carries the logs, the success count fed back through the
successCount channel, and the attempted-send count. -/
def distSendStepEmail (contentId : Nat) (subscribers : List (Nat × String)) (now : Nat)
    (sendOutcome : Provider → EmailNotification → Option String) (p : Provider)
    (acc : List EmailLog × Nat × Nat) (e : EmailNotification) :
    List EmailLog × Nat × Nat :=
  match sendOutcome p e with
  | some err =>
    (acc.1 ++ [failureLog contentId (findSubscriberID subscribers e.toAddr) e err],
      acc.2.1, acc.2.2 + 1)
  | none =>
    (acc.1 ++ [successLog contentId (findSubscriberID subscribers e.toAddr) e now],
      acc.2.1 + 1, acc.2.2 + 1)

/-- One distribution entry of sendDistributedEmails (notification
service file, lines 257-288): entries of unhealthy providers are
skipped wholesale; each email of a healthy provider is processed. -/
def distSendStepEntry (contentId : Nat) (subscribers : List (Nat × String)) (now : Nat)
    (sendOutcome : Provider → EmailNotification → Option String)
    (acc : List EmailLog × Nat × Nat) (entry : Provider × List EmailNotification) :
    List EmailLog × Nat × Nat :=
  if entry.1.isHealthy = false then acc
  else entry.2.foldl (distSendStepEmail contentId subscribers now sendOutcome entry.1) acc

/-- Result of the distributed send path. -/
structure DistributedSendResult where
  logs : List EmailLog
  sentCount : Nat
  attemptedCount : Nat
  marked : Bool
deriving Repr, DecidableEq

/-- sendDistributedEmails (notification service file, lines 242-310):
processes the distribution, then calls MarkNotificationsSent exactly
when sentCount > 0. The goroutine fan-out is sequentialised; the
counts and the marking flag do not depend on the interleaving. -/
def sendDistributedEmails (contentId : Nat)
    (dist : List (Provider × List EmailNotification))
    (subscribers : List (Nat × String)) (now : Nat)
    (sendOutcome : Provider → EmailNotification → Option String) :
    DistributedSendResult :=
  let r := dist.foldl (distSendStepEntry contentId subscribers now sendOutcome) ([], 0, 0)
  { logs := r.1, sentCount := r.2.1, attemptedCount := r.2.2,
    marked := decide (0 < r.2.1) }

/-- Claim-side number of successful sends in a distribution: emails of
healthy providers whose send succeeds. -/
def distSuccessCount (dist : List (Provider × List EmailNotification))
    (sendOutcome : Provider → EmailNotification → Option String) : Nat :=
  (dist.map (fun entry =>
    if entry.1.isHealthy
      then (entry.2.filter (fun e => (sendOutcome entry.1 e).isNone)).length
      else 0)).sum

/-- Claim-side number of attempted sends in a distribution: all emails
assigned to healthy providers. -/
def distAttemptCount (dist : List (Provider × List EmailNotification)) : Nat :=
  (dist.map (fun entry => if entry.1.isHealthy then entry.2.length else 0)).sum

/-- Active-subscriber resolution loop shared by the dispatch paths
(notification service file, lines 102-121 and 157-183): skips
subscription rows whose subscriber lookup fails or is inactive. -/
def collectActiveSubscribers (subscriptionIds : List Nat)
    (getSubscriber : Nat → Option Subscriber) : List (Nat × String) :=
  subscriptionIds.filterMap (fun sid =>
    match getSubscriber sid with
    | none => none
    | some s => if s.isActive then some (s.id, s.email) else none)

/-- Result of the single-provider path. -/
structure SingleSendResult where
  logs : List EmailLog
  sentCount : Nat
  marked : Bool
deriving Repr, DecidableEq

/-- One subscriber processed by sendEmailsConcurrently (notification
service file, lines 392-459): build the notification and the log row,
send, and finalise the row as sent or failed. -/
def singleSendStep (contentId : Nat) (content : Content) (now : Nat)
    (sendOutcome : EmailNotification → Option String)
    (acc : List EmailLog × Nat) (sub : Nat × String) : List EmailLog × Nat :=
  let n : EmailNotification :=
    { toAddr := sub.2, subject := content.title, body := content.body,
      fromAddr := "" }
  match sendOutcome n with
  | some err =>
    let row : EmailLog :=
      { subscriberId := sub.1, contentId := contentId, emailAddress := sub.2,
        subject := content.title, body := content.body, status := StatusFailed,
        sentAt := none, errorMessage := some err, retryCount := 0 }
    (acc.1 ++ [row], acc.2)
  | none =>
    let row : EmailLog :=
      { subscriberId := sub.1, contentId := contentId, emailAddress := sub.2,
        subject := content.title, body := content.body, status := StatusSent,
        sentAt := some now, errorMessage := none, retryCount := 0 }
    (acc.1 ++ [row], acc.2 + 1)

/-- sendNotificationsSingleProvider (notification service file, lines
88-141): resolves active subscribers, returns early without marking
when there are none, otherwise sends one email per subscriber and then
marks the content as notified whenever totalCount =
len(activeSubscribers) > 0, regardless of per-recipient outcomes. -/
def sendNotificationsSingleProvider (contentId : Nat) (subscriptionIds : List Nat)
    (getSubscriber : Nat → Option Subscriber) (content : Content) (now : Nat)
    (sendOutcome : EmailNotification → Option String) : SingleSendResult :=
  let active := collectActiveSubscribers subscriptionIds getSubscriber
  if active.isEmpty then
    { logs := [], sentCount := 0, marked := false }
  else
    let r := active.foldl (singleSendStep contentId content now sendOutcome) ([], 0)
    { logs := r.1, sentCount := r.2, marked := decide (0 < active.length) }

/-- Row update after one retry attempt (notification service file,
lines 494-505): on failure increment RetryCount and overwrite
ErrorMessage; on success set status sent, set the sent timestamp and
clear the error. -/
def retryUpdate (now : Nat) (l : EmailLog) (outcome : Option String) : EmailLog :=
  match outcome with
  | some err => { l with retryCount := l.retryCount + 1, errorMessage := some err }
  | none => { l with status := StatusSent, sentAt := some now, errorMessage := none }

/-- Retry notification rebuilt from the stored row (notification
service file, lines 487-491). -/
def retryNotification (l : EmailLog) : EmailNotification :=
  { toAddr := l.emailAddress, subject := l.subject, body := l.body, fromAddr := "" }

/-- Whether the subscriber of a row currently resolves to an active
subscriber. -/
def subscriberActive (getSubscriber : Nat → Option Subscriber) (sid : Nat) : Bool :=
  match getSubscriber sid with
  | some s => s.isActive
  | none => false

/-- Retry sweep trace: the rows attempted (pre-update) and the rows
passed to Save, in order. -/
structure RetrySweepResult where
  attempted : List EmailLog
  saved : List EmailLog
deriving Repr, DecidableEq

/-- One iteration of the retry loop (notification service file, lines
476-509): skip when the subscriber lookup fails or the subscriber is
inactive; otherwise resend once and save the updated row. -/
def retryStep (getSubscriber : Nat → Option Subscriber)
    (send : EmailNotification → Option String) (now : Nat)
    (acc : RetrySweepResult) (l : EmailLog) : RetrySweepResult :=
  match getSubscriber l.subscriberId with
  | none => acc
  | some sub =>
    if sub.isActive = false then acc
    else
      { attempted := acc.attempted ++ [l],
        saved := acc.saved ++ [retryUpdate now l (send (retryNotification l))] }

/-- RetryFailedEmailsWithProvider (notification service file, lines
466-512): the database query restricts to rows with status failed and
retry count strictly below MaxEmailRetryCount; the loop processes each
such row independently. -/
def retryFailedEmailsWithProvider (logs : List EmailLog)
    (getSubscriber : Nat → Option Subscriber)
    (send : EmailNotification → Option String) (now : Nat) : RetrySweepResult :=
  (logs.filter (fun l =>
      l.status == StatusFailed && decide (l.retryCount < MaxEmailRetryCount))).foldl
    (retryStep getSubscriber send now) { attempted := [], saved := [] }

/-- Concrete bulk-capable provider that is unhealthy and has the lowest
priority number, used by the C1 counterexample. -/
def bulkProviderUnhealthy : Provider :=
  { name := "bulkA", priority := 2, maxEmailsPerHour := 1000, emailsSentLastHour := 0,
    currentLoad := 0, isHealthy := false, enabled := true, supportsBulk := true }

/-- Concrete healthy bulk-capable provider with a higher priority
number. -/
def bulkProviderHealthy : Provider :=
  { name := "bulkB", priority := 3, maxEmailsPerHour := 1000, emailsSentLastHour := 0,
    currentLoad := 0, isHealthy := true, enabled := true, supportsBulk := true }

/-- Concrete failed delivery row with the given retry count, used by
the C3 scenario. -/
def sampleFailedLog (rc : Nat) : EmailLog :=
  { subscriberId := 5, contentId := 1, emailAddress := "a@example.com",
    subject := "s", body := "b", status := StatusFailed, sentAt := none,
    errorMessage := some "x", retryCount := rc }

/-- Concrete active subscriber matching sampleFailedLog. -/
def sampleActiveSubscriber : Subscriber :=
  { id := 5, email := "a@example.com", isActive := true }

/- ==================================================================
Helper lemmas
================================================================== -/

/-- Unfolding of one batched send in the non-bulk configuration. -/
lemma batchedSendEmail_not_bulk (bm : AsyncBatchManager)
    (directSend : EmailNotification → Option String) (n : EmailNotification) :
    BatchedEmailProvider.sendEmail
        { bulkEnabled := false, batchManager := some bm } directSend n =
      ({ bulkEnabled := false, batchManager := some (bm.addToBatch n).1 }, none) := by
  simp [BatchedEmailProvider.sendEmail, AsyncBatchManager.addToBatch]

/-- In the non-bulk configuration a sequence of sends returns nil for
every notification and only grows the batch. -/
lemma sendEmailSeq_not_bulk (directSend : EmailNotification → Option String)
    (ns : List EmailNotification) (bm : AsyncBatchManager) :
    ∃ bm2 : AsyncBatchManager,
      BatchedEmailProvider.sendEmailSeq
          { bulkEnabled := false, batchManager := some bm } directSend ns =
        ({ bulkEnabled := false, batchManager := some bm2 },
          List.replicate ns.length none) ∧
      bm2.batch = bm.batch ++ ns ∧ bm2.batchSize = bm.batchSize := by
  induction ns generalizing bm with
  | nil =>
    exact ⟨bm, by simp [BatchedEmailProvider.sendEmailSeq], by simp, rfl⟩
  | cons n ns ih =>
    obtain ⟨bm2, heq, hbatch, hsize⟩ := ih (bm.addToBatch n).1
    refine ⟨bm2, ?_, ?_, ?_⟩
    · simp only [BatchedEmailProvider.sendEmailSeq, batchedSendEmail_not_bulk, heq,
        List.length_cons, List.replicate_succ]
    · simpa [AsyncBatchManager.addToBatch] using hbatch
    · simpa [AsyncBatchManager.addToBatch] using hsize

/-- Closed form of the SendBulkEmail loop: the accumulator view. -/
lemma smtpBulkLoop_eq (send : String → Option String) (rs : List String)
    (c : Nat) (e : Option String) :
    smtpBulkLoop send rs c e =
      (c + bulkSuccessCount rs send, ((rs.filterMap send).getLast?).or e) := by
  induction rs generalizing c e with
  | nil => simp [smtpBulkLoop, bulkSuccessCount]
  | cons r rs ih =>
    cases h : send r with
    | some err =>
      simp only [smtpBulkLoop, h, ih, Prod.mk.injEq]
      refine ⟨by simp [bulkSuccessCount, h], ?_⟩
      simp only [List.filterMap_cons, h]
      cases hfm : rs.filterMap send with
      | nil => simp
      | cons y ys =>
        have hy : ∃ z, (y :: ys).getLast? = some z := by
          cases ys with
          | nil => exact ⟨y, rfl⟩
          | cons a as => exact ⟨(a :: as).getLast (by simp), by
              rw [List.getLast?_cons_cons]
              exact List.getLast?_eq_getLast (a :: as) (by simp)⟩
        obtain ⟨z, hz⟩ := hy
        rw [List.getLast?_cons_cons, hz]
        rfl
    | none =>
      simp only [smtpBulkLoop, h, ih, Prod.mk.injEq]
      refine ⟨?_, by simp [List.filterMap_cons, h]⟩
      simp only [bulkSuccessCount, List.filter_cons, h]
      simp
      omega

/-- Unfolded form of the round-robin map loop: bucket j collects, in
order, the emails whose index is congruent to j modulo n. -/
lemma rrLoopFun_eq (n : Nat) (l : List (Nat × EmailNotification))
    (dist : Nat → List EmailNotification) (j : Nat) :
    rrLoopFun n l dist j =
      dist j ++ (l.filter (fun p => p.1 % n == j)).map Prod.snd := by
  induction l generalizing dist with
  | nil => simp [rrLoopFun]
  | cons p l ih =>
    obtain ⟨i, email⟩ := p
    by_cases h : i % n = j
    · simp [rrLoopFun, ih, h, List.filter_cons]
    · simp [rrLoopFun, ih, h, List.filter_cons, Ne.symm h]

/-- Buckets indexed over the residues modulo n partition an indexed
list. -/
lemma rr_partition_sum (n : Nat) (hn : 0 < n) (l : List (Nat × EmailNotification)) :
    (∑ j in Finset.range n,
        ((l.filter (fun p => p.1 % n == j)).map Prod.snd : Multiset EmailNotification)) =
      (l.map Prod.snd : Multiset EmailNotification) := by
  induction l with
  | nil => simp
  | cons p l ih =>
    obtain ⟨i, email⟩ := p
    have hmem : i % n ∈ Finset.range n := Finset.mem_range.mpr (Nat.mod_lt i hn)
    have hstep : ∀ j ∈ Finset.range n,
        ((((i, email) :: l).filter (fun p => p.1 % n == j)).map Prod.snd :
            Multiset EmailNotification) =
          (if i % n = j then ({email} : Multiset EmailNotification) else 0) +
            ((l.filter (fun p => p.1 % n == j)).map Prod.snd : Multiset EmailNotification) := by
      intro j _
      by_cases h : i % n = j
      · simp only [List.filter_cons, h, beq_self_eq_true, if_true, List.map_cons]
        rw [← Multiset.cons_coe, ← Multiset.singleton_add]
      · simp [List.filter_cons, h]
    rw [Finset.sum_congr rfl hstep, Finset.sum_add_distrib, Finset.sum_ite_eq,
      if_pos hmem, ih, List.map_cons]
    rw [← Multiset.cons_coe, ← Multiset.singleton_add]

/-- Filtering an enumeration on an index predicate has the same length
as filtering the bare index range. -/
lemma enumFrom_filter_fst_length (q : Nat → Bool) (l : List EmailNotification) :
    ∀ k : Nat, ((List.enumFrom k l).filter (fun p => q p.1)).length =
      ((List.range' k l.length).filter q).length := by
  induction l with
  | nil => intro k; rfl
  | cons x l ih =>
    intro k
    have h1 : List.enumFrom k (x :: l) = (k, x) :: List.enumFrom (k + 1) l := rfl
    rw [h1, List.length_cons, List.range'_succ, List.filter_cons, List.filter_cons]
    cases hq : q k <;> simp [hq, ih (k + 1)]

/-- Divisibility characterisation for the residue count step. -/
lemma mod_eq_iff_dvd_step (M n j : Nat) (hn : 0 < n) (hj : j < n) :
    (n ∣ M + (n - 1 - j) + 1) ↔ M % n = j := by
  have h1 : M + (n - 1 - j) + 1 = M + (n - j) := by omega
  rw [h1]
  have hsplit : n * (M / n) + (M % n + (n - j)) = M + (n - j) := by
    have hdm := Nat.div_add_mod M n
    omega
  constructor
  · intro hd
    have hd2 : n ∣ M % n + (n - j) := by
      have := (Nat.dvd_add_right (Dvd.intro (M / n) rfl)).mp (hsplit ▸ hd)
      exact this
    obtain ⟨k, hk⟩ := hd2
    have hmod : M % n < n := Nat.mod_lt M hn
    have hk2 : k < 2 := by
      by_contra hge
      push_neg at hge
      have : n * 2 ≤ n * k := Nat.mul_le_mul_left n hge
      omega
    have hk0 : 0 < k := by
      by_contra h0
      push_neg at h0
      interval_cases k
      omega
    have hk1 : k = 1 := by omega
    subst hk1
    omega
  · intro hmod
    refine ⟨M / n + 1, ?_⟩
    have hdm := Nat.div_add_mod M n
    rw [Nat.mul_succ]
    omega

/-- Closed form for the number of indices below M in residue class j
modulo n. -/
lemma range_mod_filter_length (n j : Nat) (hn : 0 < n) (hj : j < n) (M : Nat) :
    ((List.range M).filter (fun i => i % n == j)).length =
      (M + (n - 1 - j)) / n := by
  induction M with
  | zero =>
    simp [Nat.div_eq_of_lt (show n - 1 - j < n by omega)]
  | succ M ih =>
    rw [List.range_succ, List.filter_append, List.length_append, ih]
    have key : (M + 1 + (n - 1 - j)) / n
        = (M + (n - 1 - j)) / n + if n ∣ M + (n - 1 - j) + 1 then 1 else 0 := by
      have h1 : M + 1 + (n - 1 - j) = M + (n - 1 - j) + 1 := by omega
      rw [h1, Nat.succ_div]
    rw [key]
    by_cases hMn : M % n = j
    · rw [if_pos ((mod_eq_iff_dvd_step M n j hn hj).mpr hMn)]
      simp [hMn]
    · rw [if_neg (fun hd => hMn ((mod_eq_iff_dvd_step M n j hn hj).mp hd))]
      simp [hMn]

/-- Bucket characterisation of the round-robin distribution in the
non-degenerate case. -/
lemma roundRobinDistributeLoad_eq (ps : List Provider) (emails : List EmailNotification)
    (hh : healthyProviders ps ≠ []) (hem : emails ≠ []) (j : Nat) :
    roundRobinDistributeLoad ps emails j =
      (emails.enum.filter
          (fun p => p.1 % (healthyProviders ps).length == j)).map Prod.snd := by
  have hps : ps ≠ [] := by
    intro h
    exact hh (by simp [healthyProviders, h])
  simp only [roundRobinDistributeLoad]
  rw [if_neg (by simp [hps, hem]), if_neg (by simp [hh]), rrLoopFun_eq]
  simp

/-- Length of each round-robin bucket. -/
lemma rrBucket_length (ps : List Provider) (emails : List EmailNotification)
    (hh : healthyProviders ps ≠ []) (hem : emails ≠ []) (j : Nat)
    (hj : j < (healthyProviders ps).length) :
    (roundRobinDistributeLoad ps emails j).length =
      (emails.length + ((healthyProviders ps).length - 1 - j)) /
        (healthyProviders ps).length := by
  have hn : 0 < (healthyProviders ps).length := List.length_pos.mpr hh
  rw [roundRobinDistributeLoad_eq ps emails hh hem j, List.length_map]
  have henum : emails.enum = List.enumFrom 0 emails := rfl
  rw [henum,
    enumFrom_filter_fst_length (fun i => i % (healthyProviders ps).length == j) emails 0,
    ← List.range_eq_range']
  exact range_mod_filter_length (healthyProviders ps).length j hn hj emails.length

/-- The capacity loop produces one bucket per provider. -/
lemma weightedTakeLoop_length (ps : List Provider) :
    ∀ rem, (weightedTakeLoop ps rem).1.length = ps.length := by
  induction ps with
  | nil => intro rem; rfl
  | cons p ps ih =>
    intro rem
    simp only [weightedTakeLoop]
    by_cases h0 : rem.length = 0
    · rw [if_pos h0]
      simp
    · rw [if_neg h0]
      by_cases hc : (p.isHealthy && decide (0 < availableCapacity p)) = true
      · rw [if_pos hc]
        simp [ih]
      · rw [if_neg hc]
        simp [ih]

/-- Replicated empty buckets satisfy any per-bucket capacity bound. -/
lemma forall2_replicate_nil (ps : List Provider) :
    List.Forall₂ (fun (p : Provider) (d : List EmailNotification) =>
      d.length ≤ availableCapacity p) ps (List.replicate ps.length []) := by
  induction ps with
  | nil => exact List.Forall₂.nil
  | cons p ps ih => exact List.Forall₂.cons (by simp) ih

/-- Each bucket produced by the capacity loop respects the available
capacity of its provider. -/
lemma weightedTakeLoop_bound (ps : List Provider) :
    ∀ rem, List.Forall₂ (fun (p : Provider) (d : List EmailNotification) =>
      d.length ≤ availableCapacity p) ps (weightedTakeLoop ps rem).1 := by
  induction ps with
  | nil => intro rem; exact List.Forall₂.nil
  | cons p ps ih =>
    intro rem
    simp only [weightedTakeLoop]
    by_cases h0 : rem.length = 0
    · rw [if_pos h0]
      exact forall2_replicate_nil (p :: ps)
    · rw [if_neg h0]
      by_cases hc : (p.isHealthy && decide (0 < availableCapacity p)) = true
      · rw [if_pos hc]
        refine List.Forall₂.cons ?_ (ih _)
        calc (rem.take (min (availableCapacity p) rem.length)).length
            ≤ min (availableCapacity p) rem.length := by
              rw [List.length_take]
              exact Nat.min_le_left _ _
          _ ≤ availableCapacity p := Nat.min_le_left _ _
      · rw [if_neg hc]
        exact List.Forall₂.cons (by simp) (ih _)

/-- Conservation: the capacity loop neither drops nor duplicates
emails; buckets plus leftovers account for the whole input. -/
lemma weightedTakeLoop_sum (ps : List Provider) :
    ∀ rem, ((weightedTakeLoop ps rem).1.map List.length).sum +
      (weightedTakeLoop ps rem).2.length = rem.length := by
  induction ps with
  | nil => intro rem; simp [weightedTakeLoop]
  | cons p ps ih =>
    intro rem
    simp only [weightedTakeLoop]
    by_cases h0 : rem.length = 0
    · rw [if_pos h0]
      simp [List.map_replicate]
    · rw [if_neg h0]
      by_cases hc : (p.isHealthy && decide (0 < availableCapacity p)) = true
      · rw [if_pos hc]
        have hrec := ih (rem.drop (min (availableCapacity p) rem.length))
        simp only [List.map_cons, List.sum_cons, List.length_take, List.length_drop] at hrec ⊢
        omega
      · rw [if_neg hc]
        have hrec := ih rem
        simp only [List.map_cons, List.sum_cons, List.length_nil] at hrec ⊢
        omega

/-- Shape of the weighted distribution in the non-degenerate case. -/
lemma weightedDistributeLoad_eq (ps : List Provider) (emails : List EmailNotification)
    (hps : ps ≠ []) (hem : emails ≠ []) (p0 : Provider) (rest : List Provider)
    (hsorted : sortByPriority ps = p0 :: rest)
    (d0 : List EmailNotification) (ds : List (List EmailNotification))
    (hds : (weightedTakeLoop (p0 :: rest) emails).1 = d0 :: ds) :
    weightedDistributeLoad ps emails =
      (p0, d0 ++ (weightedTakeLoop (p0 :: rest) emails).2) :: rest.zip ds := by
  simp only [weightedDistributeLoad]
  rw [if_neg (by simp [hps, hem]), hsorted, hds]

/-- Scan of the least-load step over an all-unhealthy list keeps the
accumulator. -/
lemma foldl_leastLoadStep_unhealthy (ps : List Provider)
    (h : ∀ p ∈ ps, p.isHealthy = false) :
    ∀ acc, ps.foldl leastLoadStep acc = acc := by
  induction ps with
  | nil => intro acc; rfl
  | cons p ps ih =>
    intro acc
    have hp : p.isHealthy = false := h p (by simp)
    rw [List.foldl_cons]
    have hstep : leastLoadStep acc p = acc := by
      simp [leastLoadStep, hp]
    rw [hstep]
    exact ih (fun q hq => h q (by simp [hq])) acc

/-- The scanned best bulk provider is one of the candidates. -/
lemma selectBestBulkProvider_mem (ps : List Provider) :
    ∀ p0, selectBestBulkProvider p0 ps ∈ p0 :: ps := by
  induction ps with
  | nil =>
    intro p0
    simp [selectBestBulkProvider]
  | cons p ps ih =>
    intro p0
    simp only [selectBestBulkProvider, List.foldl_cons]
    by_cases hc : (p.isHealthy && decide (p.priority < p0.priority)) = true
    · rw [if_pos hc]
      have hmem := ih p
      simp only [selectBestBulkProvider] at hmem
      rcases List.mem_cons.mp hmem with h | h
      · rw [h]
        exact List.mem_cons_of_mem _ (List.mem_cons_self _ _)
      · exact List.mem_cons_of_mem _ (List.mem_cons_of_mem _ h)
    · rw [if_neg hc]
      have hmem := ih p0
      simp only [selectBestBulkProvider] at hmem
      rcases List.mem_cons.mp hmem with h | h
      · rw [h]
        exact List.mem_cons_self _ _
      · exact List.mem_cons_of_mem _ (List.mem_cons_of_mem _ h)

/-- When the scan starts from a healthy provider, the result is healthy
and has minimal priority among the healthy candidates. -/
lemma selectBestBulkProvider_healthy_min (ps : List Provider) :
    ∀ p0, p0.isHealthy = true →
      (selectBestBulkProvider p0 ps).isHealthy = true ∧
      (selectBestBulkProvider p0 ps).priority ≤ p0.priority ∧
      ∀ r ∈ ps, r.isHealthy = true →
        (selectBestBulkProvider p0 ps).priority ≤ r.priority := by
  induction ps with
  | nil =>
    intro p0 h0
    exact ⟨h0, le_refl _, by simp⟩
  | cons p ps ih =>
    intro p0 h0
    simp only [selectBestBulkProvider, List.foldl_cons]
    by_cases hc : (p.isHealthy && decide (p.priority < p0.priority)) = true
    · rw [if_pos hc]
      have hc2 : p.isHealthy = true ∧ p.priority < p0.priority := by simpa using hc
      have hp : p.isHealthy = true := hc2.1
      have hlt : p.priority < p0.priority := hc2.2
      obtain ⟨hH, hle, hall⟩ := ih p hp
      simp only [selectBestBulkProvider] at hH hle hall
      refine ⟨hH, le_trans hle (le_of_lt hlt), ?_⟩
      intro r hr hrH
      rcases List.mem_cons.mp hr with heq | hmem
      · exact heq ▸ hle
      · exact hall r hmem hrH
    · rw [if_neg hc]
      obtain ⟨hH, hle, hall⟩ := ih p0 h0
      simp only [selectBestBulkProvider] at hH hle hall
      refine ⟨hH, hle, ?_⟩
      intro r hr hrH
      rcases List.mem_cons.mp hr with heq | hmem
      · subst heq
        have hge : p0.priority ≤ r.priority := by
          by_contra hlt2
          push_neg at hlt2
          exact hc (by simp [hrH, hlt2])
        exact le_trans hle hge
      · exact hall r hmem hrH

/-- Success and attempt counting for the per-email fold of one healthy
distribution entry. -/
lemma distSendStepEmail_fold (contentId : Nat) (subscribers : List (Nat × String))
    (now : Nat) (sendOutcome : Provider → EmailNotification → Option String)
    (p : Provider) (es : List EmailNotification) :
    ∀ acc : List EmailLog × Nat × Nat,
      ((es.foldl (distSendStepEmail contentId subscribers now sendOutcome p) acc).2.1
          = acc.2.1 + (es.filter (fun e => (sendOutcome p e).isNone)).length) ∧
      ((es.foldl (distSendStepEmail contentId subscribers now sendOutcome p) acc).2.2
          = acc.2.2 + es.length) := by
  induction es with
  | nil => intro acc; simp
  | cons e es ih =>
    intro acc
    rw [List.foldl_cons]
    obtain ⟨ih1, ih2⟩ :=
      ih (distSendStepEmail contentId subscribers now sendOutcome p acc e)
    cases hse : sendOutcome p e with
    | some err =>
      constructor
      · rw [ih1]
        simp [distSendStepEmail, hse, List.filter_cons]
      · rw [ih2]
        simp only [distSendStepEmail, hse, List.length_cons]
        omega
    | none =>
      constructor
      · rw [ih1]
        simp only [distSendStepEmail, hse, List.filter_cons, Option.isNone_none,
          if_true, List.length_cons]
        omega
      · rw [ih2]
        simp only [distSendStepEmail, hse, List.length_cons]
        omega

/-- Success and attempt counting for the distribution fold. -/
lemma distSendStepEntry_fold (contentId : Nat) (subscribers : List (Nat × String))
    (now : Nat) (sendOutcome : Provider → EmailNotification → Option String)
    (dist : List (Provider × List EmailNotification)) :
    ∀ acc : List EmailLog × Nat × Nat,
      ((dist.foldl (distSendStepEntry contentId subscribers now sendOutcome) acc).2.1
          = acc.2.1 + distSuccessCount dist sendOutcome) ∧
      ((dist.foldl (distSendStepEntry contentId subscribers now sendOutcome) acc).2.2
          = acc.2.2 + distAttemptCount dist) := by
  induction dist with
  | nil => intro acc; simp [distSuccessCount, distAttemptCount]
  | cons entry dist ih =>
    intro acc
    rw [List.foldl_cons]
    by_cases hh : entry.1.isHealthy = false
    · have hstep : distSendStepEntry contentId subscribers now sendOutcome acc entry
          = acc := by
        simp [distSendStepEntry, hh]
      rw [hstep]
      obtain ⟨ih1, ih2⟩ := ih acc
      constructor
      · rw [ih1]
        simp [distSuccessCount, hh]
      · rw [ih2]
        simp [distAttemptCount, hh]
    · have hh2 : entry.1.isHealthy = true := by
        revert hh
        cases entry.1.isHealthy <;> simp
      have hstep : distSendStepEntry contentId subscribers now sendOutcome acc entry
          = entry.2.foldl
              (distSendStepEmail contentId subscribers now sendOutcome entry.1) acc := by
        simp [distSendStepEntry, hh2]
      rw [hstep]
      obtain ⟨hin1, hin2⟩ :=
        distSendStepEmail_fold contentId subscribers now sendOutcome entry.1 entry.2 acc
      obtain ⟨ih1, ih2⟩ := ih (entry.2.foldl
        (distSendStepEmail contentId subscribers now sendOutcome entry.1) acc)
      constructor
      · rw [ih1, hin1]
        simp only [distSuccessCount, List.map_cons, List.sum_cons, hh2, if_true]
        omega
      · rw [ih2, hin2]
        simp only [distAttemptCount, List.map_cons, List.sum_cons, hh2, if_true]
        omega

/-- Filter and map view of the retry loop. -/
lemma retryLoop_spec (getSubscriber : Nat → Option Subscriber)
    (send : EmailNotification → Option String) (now : Nat) (ls : List EmailLog) :
    ∀ acc : RetrySweepResult,
      ((ls.foldl (retryStep getSubscriber send now) acc).attempted
          = acc.attempted ++
              ls.filter (fun l => subscriberActive getSubscriber l.subscriberId)) ∧
      ((ls.foldl (retryStep getSubscriber send now) acc).saved
          = acc.saved ++
              (ls.filter (fun l => subscriberActive getSubscriber l.subscriberId)).map
                (fun l => retryUpdate now l (send (retryNotification l)))) := by
  induction ls with
  | nil => intro acc; simp
  | cons l ls ih =>
    intro acc
    rw [List.foldl_cons]
    cases hsub : getSubscriber l.subscriberId with
    | none =>
      have hstep : retryStep getSubscriber send now acc l = acc := by
        simp [retryStep, hsub]
      have hact : subscriberActive getSubscriber l.subscriberId = false := by
        simp [subscriberActive, hsub]
      rw [hstep]
      obtain ⟨ih1, ih2⟩ := ih acc
      constructor
      · rw [ih1]
        simp [List.filter_cons, hact]
      · rw [ih2]
        simp [List.filter_cons, hact]
    | some sub =>
      by_cases hac : sub.isActive = false
      · have hstep : retryStep getSubscriber send now acc l = acc := by
          simp [retryStep, hsub, hac]
        have hact : subscriberActive getSubscriber l.subscriberId = false := by
          simp [subscriberActive, hsub, hac]
        rw [hstep]
        obtain ⟨ih1, ih2⟩ := ih acc
        constructor
        · rw [ih1]
          simp [List.filter_cons, hact]
        · rw [ih2]
          simp [List.filter_cons, hact]
      · have hac2 : sub.isActive = true := by
          revert hac
          cases sub.isActive <;> simp
        have hstep : retryStep getSubscriber send now acc l
            = { attempted := acc.attempted ++ [l],
                saved := acc.saved ++ [retryUpdate now l (send (retryNotification l))] } := by
          simp [retryStep, hsub, hac2]
        have hact : subscriberActive getSubscriber l.subscriberId = true := by
          simp [subscriberActive, hsub, hac2]
        rw [hstep]
        obtain ⟨ih1, ih2⟩ :=
          ih { attempted := acc.attempted ++ [l],
               saved := acc.saved ++ [retryUpdate now l (send (retryNotification l))] }
        constructor
        · rw [ih1]
          simp [List.filter_cons, hact]
        · rw [ih2]
          simp [List.filter_cons, hact]

/- ==================================================================
Claim theorems
================================================================== -/

/-- C4: every SMTP provider is wrapped by the factory as a
BatchedEmailProvider with bulkEnabled = false; for such a provider
SendEmail returns nil for every notification in every call sequence,
because the notification is only appended to the batch (AddToBatch never
returns an error), so individual delivery failures are invisible to the
SendEmail caller. -/
theorem c4_batched_smtp_send_always_nil (batchSize : Nat)
    (directSend : EmailNotification → Option String) (ns : List EmailNotification) :
    ((NewBatchedEmailProvider batchSize false).sendEmailSeq directSend ns).2 =
        List.replicate ns.length none ∧
    ∃ bm : AsyncBatchManager,
      ((NewBatchedEmailProvider batchSize false).sendEmailSeq directSend ns).1.batchManager
          = some bm ∧ bm.batch = ns := by
  obtain ⟨bm2, heq, hbatch, _⟩ :=
    sendEmailSeq_not_bulk directSend ns
      { batchSize := batchSize, batch := [], processingTriggered := false }
  have hnew : NewBatchedEmailProvider batchSize false =
      { bulkEnabled := false,
        batchManager :=
          some { batchSize := batchSize, batch := [], processingTriggered := false } } := by
    simp [NewBatchedEmailProvider]
  rw [hnew, heq]
  exact ⟨rfl, bm2, rfl, by simpa using hbatch⟩

/-- C6 counterexample: with a single recipient whose individual send
fails, fewer than 50 percent of the sends succeeded (0 of 1), yet
SendBulkEmail returns nil, because the acceptance test is
successCount < len/2 with integer division and 1/2 = 0. -/
theorem c6_counterexample :
    smtpSendBulkEmail ["a"] (fun _ => some "connection refused") = .ok ∧
    2 * bulkSuccessCount ["a"] (fun _ => some "connection refused") <
      (["a"] : List String).length := by
  constructor
  · rfl
  · simp [bulkSuccessCount]

/-- C6 amended: SendBulkEmail on the SMTP provider emulates bulk by
sending to each recipient individually, and returns nil exactly when the
number of successful individual sends is at least len(recipients)/2
rounded down (Go integer division), not at least 50 percent; when the
success count is below that floor it returns an error carrying the
success count, the total and the last per-recipient error. -/
theorem c6_smtp_bulk_amended (recipients : List String)
    (send : String → Option String) :
    (smtpSendBulkEmail recipients send = .ok ↔
      recipients.length / 2 ≤ bulkSuccessCount recipients send) ∧
    (bulkSuccessCount recipients send < recipients.length / 2 →
      smtpSendBulkEmail recipients send =
        .failed (bulkSuccessCount recipients send) recipients.length
          (bulkLastError recipients send)) := by
  have hloop := smtpBulkLoop_eq send recipients 0 none
  constructor
  · constructor
    · intro h
      by_contra hlt
      push_neg at hlt
      simp only [smtpSendBulkEmail, hloop] at h
      rw [if_pos (by simpa using hlt)] at h
      exact BulkSendResult.noConfusion h
    · intro h
      simp only [smtpSendBulkEmail, hloop]
      rw [if_neg (by simpa using Nat.not_lt.mpr h)]
  · intro h
    simp only [smtpSendBulkEmail, hloop]
    rw [if_pos (by simpa using h)]
    simp [bulkLastError]

/-- C6 witness: the amended theorem applied at two concrete inputs, one
accepted bulk call (2 successes of 4) and one rejected bulk call (0
successes of 2, reported with the last error). -/
theorem c6_witness :
    smtpSendBulkEmail ["a", "b", "c", "d"]
        (fun r => if r = "a" ∨ r = "b" then none else some "x") = .ok ∧
    smtpSendBulkEmail ["a", "b"] (fun _ => some "x") =
      .failed 0 2 (some "x") := by
  constructor
  · exact (c6_smtp_bulk_amended ["a", "b", "c", "d"]
      (fun r => if r = "a" ∨ r = "b" then none else some "x")).1.mpr (by decide)
  · have := (c6_smtp_bulk_amended ["a", "b"] (fun _ => some "x")).2 (by decide)
    simpa [bulkSuccessCount, bulkLastError] using this

/-- C9: the provider health flag is binary with no debounce, for both
the SMTP and the SendGrid provider: after any send attempt that returns
an error the health is false, after any successful attempt it is true,
and in particular after k+1 consecutive failures health is false while
after k failures followed by one success it is true, from any starting
state. -/
theorem c9_health_binary (st : ProviderHealthState) (rs : List (Option String))
    (r : Option String) (k : Nat) (e : String) :
    (smtpApplySends st (rs ++ [r])).isHealthy = r.isNone ∧
    (sendGridApplySends st (rs ++ [r])).isHealthy = r.isNone ∧
    (smtpApplySends st (List.replicate (k + 1) (some e))).isHealthy = false ∧
    (smtpApplySends st (List.replicate k (some e) ++ [none])).isHealthy = true ∧
    (sendGridApplySends st (List.replicate (k + 1) (some e))).isHealthy = false ∧
    (sendGridApplySends st (List.replicate k (some e) ++ [none])).isHealthy = true := by
  have hsmtp : ∀ (st : ProviderHealthState) (rs : List (Option String)) (r : Option String),
      (smtpApplySends st (rs ++ [r])).isHealthy = r.isNone := by
    intro st rs r
    simp only [smtpApplySends, List.foldl_append, List.foldl_cons, List.foldl_nil]
    cases r <;> simp [smtpSendEmailUpdate]
  have hsg : ∀ (st : ProviderHealthState) (rs : List (Option String)) (r : Option String),
      (sendGridApplySends st (rs ++ [r])).isHealthy = r.isNone := by
    intro st rs r
    simp only [sendGridApplySends, List.foldl_append, List.foldl_cons, List.foldl_nil]
    cases r <;> simp [sendGridSendEmailUpdate]
  refine ⟨hsmtp st rs r, hsg st rs r, ?_, ?_, ?_, ?_⟩
  · rw [List.replicate_succ' (n := k)]
    simpa using hsmtp st (List.replicate k (some e)) (some e)
  · simpa using hsmtp st (List.replicate k (some e)) none
  · rw [List.replicate_succ' (n := k)]
    simpa using hsg st (List.replicate k (some e)) (some e)
  · simpa using hsg st (List.replicate k (some e)) none

/-- C10: evaluation of the code at the failing input. A dynamic SMTP
provider constructed from a configuration whose priority is 7 stores 7
in its priority field, yet GetPriority returns the hard-coded 1; the
generic API provider built from a configuration with the same priority
returns the configured value. The claim that every provider kind
reports its configured priority is contradicted by the SMTP case. -/
theorem c10_smtp_priority_ignored :
    (NewDynamicSMTPProvider "primary" smtpConfigPriority7).getPriority = 1 ∧
    (NewDynamicSMTPProvider "primary" smtpConfigPriority7).priority = 7 ∧
    (NewDynamicAPIProvider "api"
      { token := "t", endpoint := "e", priority := 7, maxEmailsPerHour := 100,
        bulkEnabled := true, maxBatchSize := 10 }).getPriority = 7 := by
  refine ⟨rfl, rfl, rfl⟩

/-- C5 counterexample: with one provider that is unhealthy and one
message, round-robin DistributeLoad assigns nothing at all (the healthy
filter is empty and the function returns an empty map), so the message
is not assigned to exactly one provider and the multiset union of the
assigned lists is not the input list. -/
theorem c5_counterexample :
    roundRobinDistributeLoad [unhealthyOnlyProvider] [sampleEmail] 0 = [] ∧
    healthyProviders [unhealthyOnlyProvider] = [] ∧
    ([sampleEmail] : List EmailNotification).length = 1 := by
  refine ⟨rfl, rfl, rfl⟩

/-- C5 amended: provided at least one provider is healthy, round-robin
DistributeLoad assigns every message to exactly one healthy provider
(the multiset union of the buckets over the healthy providers equals the
input list) and the bucket sizes of any two healthy providers differ by
at most 1; unhealthy providers are assigned nothing by construction.
When no provider is healthy the distribution is empty and the messages
are dropped. -/
theorem c5_round_robin_distribute_amended (ps : List Provider)
    (emails : List EmailNotification) (hh : healthyProviders ps ≠ []) :
    (∑ j in Finset.range (healthyProviders ps).length,
        (roundRobinDistributeLoad ps emails j : Multiset EmailNotification)) =
      (emails : Multiset EmailNotification) ∧
    ∀ j k, j < (healthyProviders ps).length → k < (healthyProviders ps).length →
      (roundRobinDistributeLoad ps emails j).length ≤
        (roundRobinDistributeLoad ps emails k).length + 1 := by
  by_cases hem : emails = []
  · subst hem
    have hzero : ∀ j, roundRobinDistributeLoad ps [] j = [] := by
      intro j
      simp [roundRobinDistributeLoad]
    constructor
    · simp [hzero]
    · intro j k _ _
      simp [hzero]
  · have hn : 0 < (healthyProviders ps).length := List.length_pos.mpr hh
    constructor
    · have hcong : ∀ j ∈ Finset.range (healthyProviders ps).length,
          (roundRobinDistributeLoad ps emails j : Multiset EmailNotification) =
            ((emails.enum.filter
                (fun p => p.1 % (healthyProviders ps).length == j)).map Prod.snd :
              Multiset EmailNotification) := by
        intro j _
        rw [roundRobinDistributeLoad_eq ps emails hh hem j]
      rw [Finset.sum_congr rfl hcong,
        rr_partition_sum (healthyProviders ps).length hn emails.enum,
        List.enum_map_snd]
    · intro j k hj hk
      rw [rrBucket_length ps emails hh hem j hj, rrBucket_length ps emails hh hem k hk]
      have hdiv : (emails.length + ((healthyProviders ps).length - 1 - k)) /
            (healthyProviders ps).length + 1 =
          (emails.length + ((healthyProviders ps).length - 1 - k) +
              (healthyProviders ps).length) / (healthyProviders ps).length :=
        (Nat.add_div_right _ hn).symm
      rw [hdiv]
      exact Nat.div_le_div_right (by omega)

/-- C5 witness: the amended theorem at a concrete input, one healthy
provider next to an unhealthy one and three messages. -/
theorem c5_witness :
    healthyProviders [unhealthyOnlyProvider, healthyWitnessProvider] ≠ [] ∧
    ((∑ j in Finset.range
          (healthyProviders [unhealthyOnlyProvider, healthyWitnessProvider]).length,
        (roundRobinDistributeLoad [unhealthyOnlyProvider, healthyWitnessProvider]
            [sampleEmail, sampleEmail2, sampleEmail3] j : Multiset EmailNotification)) =
      ([sampleEmail, sampleEmail2, sampleEmail3] : Multiset EmailNotification) ∧
    ∀ j k,
      j < (healthyProviders [unhealthyOnlyProvider, healthyWitnessProvider]).length →
      k < (healthyProviders [unhealthyOnlyProvider, healthyWitnessProvider]).length →
      (roundRobinDistributeLoad [unhealthyOnlyProvider, healthyWitnessProvider]
          [sampleEmail, sampleEmail2, sampleEmail3] j).length ≤
        (roundRobinDistributeLoad [unhealthyOnlyProvider, healthyWitnessProvider]
            [sampleEmail, sampleEmail2, sampleEmail3] k).length + 1) := by
  constructor
  · intro h
    exact absurd (congrArg List.length h) (by decide)
  · exact c5_round_robin_distribute_amended
      [unhealthyOnlyProvider, healthyWitnessProvider]
      [sampleEmail, sampleEmail2, sampleEmail3]
      (by intro h; exact absurd (congrArg List.length h) (by decide))

/-- C7: weighted DistributeLoad gives each provider other than the
first sorted (highest-priority) provider at most its remaining hourly
headroom (hourly cap minus emails sent this hour, at least zero), and
assigns every email: the bucket sizes sum to the input size, so all
leftover emails beyond the aggregate headroom land on the first
provider. -/
theorem c7_weighted_headroom (ps : List Provider) (emails : List EmailNotification)
    (hps : ps ≠ []) :
    (∀ pair ∈ (weightedDistributeLoad ps emails).tail,
        pair.2.length ≤ availableCapacity pair.1) ∧
    ((weightedDistributeLoad ps emails).map (fun pair => pair.2.length)).sum
        = emails.length := by
  by_cases hem : emails = []
  · subst hem
    simp [weightedDistributeLoad]
  · obtain ⟨p0, rest, hsorted⟩ : ∃ p0 rest, sortByPriority ps = p0 :: rest := by
      have hlen : (sortByPriority ps).length = ps.length :=
        (List.perm_insertionSort byPriority ps).length_eq
      cases hs : sortByPriority ps with
      | nil =>
        rw [hs] at hlen
        exact absurd (List.length_eq_zero.mp hlen.symm) hps
      | cons a t => exact ⟨a, t, rfl⟩
    obtain ⟨d0, ds, hds⟩ : ∃ d0 ds,
        (weightedTakeLoop (p0 :: rest) emails).1 = d0 :: ds := by
      have hlen := weightedTakeLoop_length (p0 :: rest) emails
      cases hd : (weightedTakeLoop (p0 :: rest) emails).1 with
      | nil =>
        rw [hd] at hlen
        simp at hlen
      | cons a t => exact ⟨a, t, rfl⟩
    rw [weightedDistributeLoad_eq ps emails hps hem p0 rest hsorted d0 ds hds]
    have hbound := weightedTakeLoop_bound (p0 :: rest) emails
    rw [hds] at hbound
    have hbtail := (List.forall₂_cons.mp hbound).2
    constructor
    · intro pair hpair
      simp only [List.tail_cons] at hpair
      exact (List.forall₂_iff_zip.mp hbtail).2 (by simpa using hpair)
    · have hsum := weightedTakeLoop_sum (p0 :: rest) emails
      rw [hds] at hsum
      have hlenrest : rest.length = ds.length := hbtail.length_eq
      have hmapzip : (rest.zip ds).map (fun pair => pair.2.length)
          = ds.map List.length := by
        calc (rest.zip ds).map (fun pair => pair.2.length)
            = ((rest.zip ds).map Prod.snd).map List.length := by
              rw [List.map_map]
              rfl
          _ = ds.map List.length := by
              rw [List.map_snd_zip rest ds (le_of_eq hlenrest.symm)]
      simp only [List.map_cons, List.sum_cons, hmapzip, List.length_append]
      simp only [List.map_cons, List.sum_cons] at hsum
      omega

/-- C7 witness: the theorem applied to a healthy provider with headroom
40 next to an unhealthy one and two emails. -/
theorem c7_witness :
    ([healthyWitnessProvider, unhealthyOnlyProvider] : List Provider) ≠ [] ∧
    ((∀ pair ∈ (weightedDistributeLoad [healthyWitnessProvider, unhealthyOnlyProvider]
          [sampleEmail, sampleEmail2]).tail,
        pair.2.length ≤ availableCapacity pair.1) ∧
      ((weightedDistributeLoad [healthyWitnessProvider, unhealthyOnlyProvider]
          [sampleEmail, sampleEmail2]).map (fun pair => pair.2.length)).sum
        = ([sampleEmail, sampleEmail2] : List EmailNotification).length) :=
  ⟨by simp,
    c7_weighted_headroom [healthyWitnessProvider, unhealthyOnlyProvider]
      [sampleEmail, sampleEmail2] (by simp)⟩

/-- C8: with a non-empty provider list and zero healthy providers, all
three SelectProvider strategies still return a provider instead of
failing: round-robin and least-load fall back to the first configured
provider, weighted falls back to the head of the priority-sorted list,
which is a provider of minimal priority number. -/
theorem c8_select_zero_healthy_fallback (counter : Nat) (ps : List Provider)
    (hps : ps ≠ []) (hunh : ∀ p ∈ ps, p.isHealthy = false) :
    roundRobinSelectProvider counter ps = ps.head? ∧
    leastLoadSelectProvider ps = ps.head? ∧
    weightedSelectProvider ps = (sortByPriority ps).head? ∧
    (roundRobinSelectProvider counter ps).isSome = true ∧
    (leastLoadSelectProvider ps).isSome = true ∧
    (weightedSelectProvider ps).isSome = true ∧
    ∃ q, weightedSelectProvider ps = some q ∧ q ∈ ps ∧
      ∀ r ∈ ps, q.priority ≤ r.priority := by
  obtain ⟨a, t, hat⟩ : ∃ a t, ps = a :: t := by
    cases ps with
    | nil => exact absurd rfl hps
    | cons a t => exact ⟨a, t, rfl⟩
  have hpsE : ps.isEmpty = false := by rw [hat]; rfl
  have hhealthy : healthyProviders ps = [] := by
    apply List.filter_eq_nil_iff.mpr
    intro p hp
    simp [hunh p hp]
  have hrr : roundRobinSelectProvider counter ps = ps.head? := by
    simp [roundRobinSelectProvider, hpsE, hhealthy]
  have hll : leastLoadSelectProvider ps = ps.head? := by
    simp [leastLoadSelectProvider, hpsE, foldl_leastLoadStep_unhealthy ps hunh]
  have hsortperm := List.perm_insertionSort byPriority ps
  have hfind : (sortByPriority ps).find? (fun p =>
      p.isHealthy && decide (p.emailsSentLastHour < p.maxEmailsPerHour) &&
        decide (p.currentLoad < 90)) = none := by
    apply List.find?_eq_none.mpr
    intro x hx
    have hxps : x ∈ ps := hsortperm.mem_iff.mp hx
    simp [hunh x hxps]
  have hw : weightedSelectProvider ps = (sortByPriority ps).head? := by
    simp only [weightedSelectProvider, hpsE, Bool.false_eq_true, if_false]
    rw [hfind]
  obtain ⟨q, rest, hq⟩ : ∃ q rest, sortByPriority ps = q :: rest := by
    have hlen : (sortByPriority ps).length = ps.length := hsortperm.length_eq
    cases hs : sortByPriority ps with
    | nil =>
      rw [hs] at hlen
      exact absurd (List.length_eq_zero.mp hlen.symm) hps
    | cons b u => exact ⟨b, u, rfl⟩
  have hsorted : List.Sorted byPriority (sortByPriority ps) :=
    List.sorted_insertionSort byPriority ps
  refine ⟨hrr, hll, hw, ?_, ?_, ?_, q, ?_, ?_, ?_⟩
  · rw [hrr, hat]; rfl
  · rw [hll, hat]; rfl
  · rw [hw, hq]; rfl
  · rw [hw, hq]; rfl
  · have hmemq : q ∈ sortByPriority ps := by
      rw [hq]
      exact List.mem_cons_self q rest
    exact hsortperm.mem_iff.mp hmemq
  · intro r hr
    have hrs : r ∈ sortByPriority ps := hsortperm.mem_iff.mpr hr
    rw [hq] at hrs
    rcases List.mem_cons.mp hrs with heq | hmem
    · rw [heq]
    · exact List.rel_of_sorted_cons (hq ▸ hsorted) r hmem

/-- C8 witness: the theorem applied to two concrete unhealthy providers
with priorities 1 and -4; every strategy still picks a provider, and
weighted picks the priority -4 one. -/
theorem c8_witness :
    (([unhealthyOnlyProvider, unhealthyProvider2] : List Provider) ≠ [] ∧
      ∀ p ∈ ([unhealthyOnlyProvider, unhealthyProvider2] : List Provider),
        p.isHealthy = false) ∧
    roundRobinSelectProvider 0 [unhealthyOnlyProvider, unhealthyProvider2]
        = some unhealthyOnlyProvider ∧
    leastLoadSelectProvider [unhealthyOnlyProvider, unhealthyProvider2]
        = some unhealthyOnlyProvider ∧
    ∃ q, weightedSelectProvider [unhealthyOnlyProvider, unhealthyProvider2] = some q ∧
      q ∈ ([unhealthyOnlyProvider, unhealthyProvider2] : List Provider) ∧
      ∀ r ∈ ([unhealthyOnlyProvider, unhealthyProvider2] : List Provider),
        q.priority ≤ r.priority := by
  have h := c8_select_zero_healthy_fallback 0 [unhealthyOnlyProvider, unhealthyProvider2]
    (by simp) (by decide)
  refine ⟨⟨by simp, by decide⟩, ?_, ?_, h.2.2.2.2.2.2⟩
  · rw [h.1]; rfl
  · rw [h.2.1]; rfl

/-- C1 counterexample: with 11 recipients and bulk-capable providers
[A (priority 2, unhealthy), B (priority 3, healthy)], a healthy
bulk-capable provider exists, yet the single bulk send goes through the
unhealthy provider A: the best-provider scan starts at the first
bulk-capable provider and only replaces it with a healthy provider of
strictly lower priority, which B is not. -/
theorem c1_counterexample :
    10 < (List.replicate 11 sampleEmail).length ∧
    bulkProviderHealthy ∈
      getBulkCapableProviders [bulkProviderUnhealthy, bulkProviderHealthy] ∧
    bulkProviderHealthy.isHealthy = true ∧
    (sendNotificationsMultiProviderTrace (List.replicate 11 sampleEmail)
        [bulkProviderUnhealthy, bulkProviderHealthy] (fun _ => none)).bulkAttempts
      = [bulkProviderUnhealthy] ∧
    bulkProviderUnhealthy.isHealthy = false := by
  refine ⟨by decide, by decide, rfl, rfl, rfl⟩

/-- C1 amended: when a dispatch has more than 10 recipients and at
least one bulk-capable provider is registered, the orchestrator
attempts exactly one bulk send (no no-provider error), through the
provider chosen by the scan that starts from the first bulk-capable
provider and switches to any healthy provider of strictly lower
priority; that provider is the healthy bulk-capable provider with the
lowest priority number whenever the first bulk-capable provider is
healthy, but can be the unhealthy first provider otherwise. Whenever
the bulk send returns an error, the orchestrator falls back to the
distributed per-recipient path with the same recipients instead of
aborting; on success the distributed path does not run. -/
theorem c1_bulk_dispatch_amended (emails : List EmailNotification)
    (ps : List Provider) (bulkOutcome : Provider → Option String)
    (p0 : Provider) (rest : List Provider)
    (hemails : 10 < emails.length)
    (hbulk : getBulkCapableProviders ps = p0 :: rest) :
    (sendNotificationsMultiProviderTrace emails ps bulkOutcome).bulkAttempts
        = [selectBestBulkProvider p0 (p0 :: rest)] ∧
    (sendNotificationsMultiProviderTrace emails ps bulkOutcome).errNoBulk = false ∧
    selectBestBulkProvider p0 (p0 :: rest) ∈ getBulkCapableProviders ps ∧
    (sendNotificationsMultiProviderTrace emails ps bulkOutcome).distributedWith
        = (if (bulkOutcome (selectBestBulkProvider p0 (p0 :: rest))).isSome
            then some emails else none) ∧
    (p0.isHealthy = true →
      (selectBestBulkProvider p0 (p0 :: rest)).isHealthy = true ∧
      ∀ r ∈ getBulkCapableProviders ps, r.isHealthy = true →
        (selectBestBulkProvider p0 (p0 :: rest)).priority ≤ r.priority) := by
  have htrace : sendNotificationsMultiProviderTrace emails ps bulkOutcome
      = sendBulkEmailsTrace emails (p0 :: rest) bulkOutcome := by
    simp only [sendNotificationsMultiProviderTrace, hbulk]
    rw [if_pos (by simp [hemails])]
  have hmin : p0.isHealthy = true →
      (selectBestBulkProvider p0 (p0 :: rest)).isHealthy = true ∧
      ∀ r ∈ getBulkCapableProviders ps, r.isHealthy = true →
        (selectBestBulkProvider p0 (p0 :: rest)).priority ≤ r.priority := by
    intro h0
    obtain ⟨hH, _, hall⟩ := selectBestBulkProvider_healthy_min (p0 :: rest) p0 h0
    refine ⟨hH, ?_⟩
    rw [hbulk]
    exact hall
  have hmem : selectBestBulkProvider p0 (p0 :: rest) ∈ getBulkCapableProviders ps := by
    rw [hbulk]
    have := selectBestBulkProvider_mem (p0 :: rest) p0
    rcases List.mem_cons.mp this with h | h
    · rw [h]
      exact List.mem_cons_self _ _
    · exact h
  rw [htrace]
  simp only [sendBulkEmailsTrace]
  cases hout : bulkOutcome (selectBestBulkProvider p0 (p0 :: rest)) with
  | some e => exact ⟨rfl, rfl, hmem, by simp, hmin⟩
  | none => exact ⟨rfl, rfl, hmem, by simp, hmin⟩

/-- C1 witness: the amended theorem applied to one healthy bulk
provider whose bulk call fails, so the dispatch falls back to the
distributed path with the same 11 recipients. -/
theorem c1_witness :
    (10 < (List.replicate 11 sampleEmail).length ∧
      getBulkCapableProviders [bulkProviderHealthy] = bulkProviderHealthy :: []) ∧
    ((sendNotificationsMultiProviderTrace (List.replicate 11 sampleEmail)
        [bulkProviderHealthy] (fun _ => some "bulk down")).bulkAttempts
        = [selectBestBulkProvider bulkProviderHealthy (bulkProviderHealthy :: [])] ∧
    (sendNotificationsMultiProviderTrace (List.replicate 11 sampleEmail)
        [bulkProviderHealthy] (fun _ => some "bulk down")).errNoBulk = false ∧
    selectBestBulkProvider bulkProviderHealthy (bulkProviderHealthy :: []) ∈
      getBulkCapableProviders [bulkProviderHealthy] ∧
    (sendNotificationsMultiProviderTrace (List.replicate 11 sampleEmail)
        [bulkProviderHealthy] (fun _ => some "bulk down")).distributedWith
        = (if ((fun _ => some "bulk down")
              (selectBestBulkProvider bulkProviderHealthy (bulkProviderHealthy :: []))).isSome
            then some (List.replicate 11 sampleEmail) else none) ∧
    (bulkProviderHealthy.isHealthy = true →
      (selectBestBulkProvider bulkProviderHealthy (bulkProviderHealthy :: [])).isHealthy
          = true ∧
      ∀ r ∈ getBulkCapableProviders [bulkProviderHealthy], r.isHealthy = true →
        (selectBestBulkProvider bulkProviderHealthy (bulkProviderHealthy :: [])).priority
          ≤ r.priority)) :=
  ⟨⟨by decide, rfl⟩,
    c1_bulk_dispatch_amended (List.replicate 11 sampleEmail) [bulkProviderHealthy]
      (fun _ => some "bulk down") bulkProviderHealthy [] (by decide) rfl⟩

/-- C2 counterexample: a distributed dispatch with one attempted
recipient whose send fails does not mark the content: the code marks
only when sentCount > 0, so a dispatch in which every attempted send
failed leaves the content unmarked, contradicting the claim that
marking happens whenever at least one recipient was attempted. -/
theorem c2_counterexample :
    (sendDistributedEmails 1 [(healthyWitnessProvider, [sampleEmail])]
        [(5, "a@example.com")] 0 (fun _ _ => some "boom")).attemptedCount = 1 ∧
    (sendDistributedEmails 1 [(healthyWitnessProvider, [sampleEmail])]
        [(5, "a@example.com")] 0 (fun _ _ => some "boom")).marked = false := by
  refine ⟨rfl, rfl⟩

/-- C2 amended: the two send paths differ. The distributed
multi-provider path calls MarkNotificationsSent exactly when at least
one per-recipient send succeeded (sentCount > 0), so it is not
independent of per-recipient success. The single-provider path marks
exactly when at least one active subscriber was attempted, regardless
of how many sends succeeded (also when all of them failed). -/
theorem c2_marking_amended (contentId : Nat)
    (dist : List (Provider × List EmailNotification))
    (subscribers : List (Nat × String)) (now : Nat)
    (sendOutcome : Provider → EmailNotification → Option String)
    (subscriptionIds : List Nat) (getSubscriber : Nat → Option Subscriber)
    (content : Content) (now2 : Nat)
    (sendOutcome2 : EmailNotification → Option String) :
    ((sendDistributedEmails contentId dist subscribers now sendOutcome).marked
        = decide (0 < distSuccessCount dist sendOutcome)) ∧
    ((sendDistributedEmails contentId dist subscribers now sendOutcome).attemptedCount
        = distAttemptCount dist) ∧
    ((sendNotificationsSingleProvider contentId subscriptionIds getSubscriber content
          now2 sendOutcome2).marked
      = decide (collectActiveSubscribers subscriptionIds getSubscriber ≠ [])) := by
  obtain ⟨h1, h2⟩ :=
    distSendStepEntry_fold contentId subscribers now sendOutcome dist ([], 0, 0)
  refine ⟨?_, ?_, ?_⟩
  · simp only [sendDistributedEmails]
    rw [h1]
    simp
  · simp only [sendDistributedEmails]
    rw [h2]
    simp
  · simp only [sendNotificationsSingleProvider]
    by_cases hact : collectActiveSubscribers subscriptionIds getSubscriber = []
    · simp [hact]
    · rw [if_neg (by simp [List.isEmpty_iff, hact])]
      simp [hact, List.length_pos.mpr hact]

/-- C3: one retry sweep attempts exactly the rows with status failed
and retry count strictly below the ceiling 3 whose subscriber currently
resolves to an active subscriber; each attempted row is resent once and
saved individually, updated on success to status sent with the sent
timestamp set and the error cleared, and on failure with the retry
count incremented and the error text overwritten. In particular, for
failed rows with retry counts 0, 2 and 3 and an active subscriber, only
the first two are attempted. -/
theorem c3_retry_sweep (logs : List EmailLog)
    (getSubscriber : Nat → Option Subscriber)
    (send : EmailNotification → Option String) (now : Nat) :
    ((retryFailedEmailsWithProvider logs getSubscriber send now).attempted
        = logs.filter (fun l => l.status == StatusFailed &&
            decide (l.retryCount < MaxEmailRetryCount) &&
            subscriberActive getSubscriber l.subscriberId)) ∧
    ((retryFailedEmailsWithProvider logs getSubscriber send now).saved
        = (retryFailedEmailsWithProvider logs getSubscriber send now).attempted.map
            (fun l => retryUpdate now l (send (retryNotification l)))) ∧
    ((retryFailedEmailsWithProvider
          [sampleFailedLog 0, sampleFailedLog 2, sampleFailedLog 3]
          (fun _ => some sampleActiveSubscriber) (fun _ => none) 7).attempted
      = [sampleFailedLog 0, sampleFailedLog 2]) := by
  obtain ⟨h1, h2⟩ := retryLoop_spec getSubscriber send now
    (logs.filter (fun l =>
      l.status == StatusFailed && decide (l.retryCount < MaxEmailRetryCount)))
    { attempted := [], saved := [] }
  have hatt : (retryFailedEmailsWithProvider logs getSubscriber send now).attempted
      = logs.filter (fun l => l.status == StatusFailed &&
          decide (l.retryCount < MaxEmailRetryCount) &&
          subscriberActive getSubscriber l.subscriberId) := by
    rw [retryFailedEmailsWithProvider, h1]
    simp only [List.nil_append]
    rw [List.filter_filter]
    refine List.filter_congr ?_
    intro x _
    exact Bool.and_comm _ _
  refine ⟨hatt, ?_, by decide⟩
  simp only [retryFailedEmailsWithProvider]
  rw [h1, h2]
  simp

end Newsletter
